import Mathlib

/-!
Shallow embedding of `pdftotext.go` (package `pdftotextgo`), a thin Go
wrapper around the external `pdftotext` binary, together with theorems
checking the repository's specification against it.

Modelling conventions:
* Go `int` fields are embedded as `Int` (only comparisons with 0 and
  decimal rendering of positive values occur, so overflow is irrelevant).
* Go `float64` fields (`FixedPitch`, `ColSpacing`) are idealised as `ℚ`;
  `strconv.FormatFloat(v, 'f', -1, 64)` is idealised as the exact decimal
  expansion of the rational (truncated at 64 fractional digits).
  Properties that depend on IEEE-754 binary64 rounding are outside the
  scope of this embedding.
* The subprocess is abstracted by a `Runner`: a function from the binary
  path and the argument vector to a `ProcResult` (either an exit with a
  code and the captured stdout/stderr text, or a failure to start the
  process at all).  `exec.Cmd.Run` returning `nil` corresponds exactly to
  an exit with code 0.
* A Go error value produced by this package is embedded as a `ConvError`:
  the sentinel it wraps (`kind`, mirroring `errors.Is`) together with its
  formatted message (mirroring `fmt.Errorf`).
-/

namespace PdfToTextGo

/-- Model of `strconv.Itoa` on the embedded Go `int`. -/
def itoa (n : Int) : String := Int.repr n

/-- Fractional decimal digits of a rational in `[0, 1)`, with fuel. -/
def fracDigits : Nat → ℚ → String
  | 0, _ => ""
  | fuel + 1, q =>
    if q = 0 then ""
    else
      let d : Int := Rat.floor (q * 10)
      Int.repr d ++ fracDigits fuel (q * 10 - (d : ℚ))

/-- Idealisation of `strconv.FormatFloat(v, 'f', -1, 64)` on the `ℚ`
idealisation of a `float64` field: decimal form with no exponent and no
trailing zero fraction (the exact expansion, truncated at 64 digits).
Facts depending on binary64 shortest-round-trip rendering are not
captured by this idealisation. -/
def formatFloat (q : ℚ) : String :=
  let i : Int := Rat.floor q
  let f : ℚ := q - (i : ℚ)
  if f = 0 then Int.repr i else Int.repr i ++ "." ++ fracDigits 64 f

/-- The `EOLType` string constants of the source (`EOLUnix` etc.);
`EOLType` itself is a Go string type and is embedded as `String`. -/
def EOLUnix : String := "unix"

/-- `EOLDos` constant. -/
def EOLDos : String := "dos"

/-- `EOLMac` constant. -/
def EOLMac : String := "mac"

/-- The `Options` struct of `pdftotext.go`, field for field.  The default
value of every field is the Go zero value. -/
structure Options where
  FirstPage : Int := 0
  LastPage : Int := 0
  Resolution : Int := 0
  CropX : Int := 0
  CropY : Int := 0
  CropWidth : Int := 0
  CropHeight : Int := 0
  Layout : Bool := false
  FixedPitch : ℚ := 0
  Raw : Bool := false
  NoDiagonal : Bool := false
  HTMLMeta : Bool := false
  BBox : Bool := false
  BBoxLayout : Bool := false
  TSV : Bool := false
  CropBox : Bool := false
  ColSpacing : ℚ := 0
  Encoding : String := ""
  EOL : String := ""
  NoPageBreaks : Bool := false
  OwnerPassword : String := ""
  UserPassword : String := ""
  Quiet : Bool := false
deriving DecidableEq

/-- The Go zero value of `Options` (what a caller gets from `Options{}`,
and what the tests' `nil` options dereference to). -/
def defaultOptions : Options := {}

/-- The `Converter` struct: the resolved binary path and the options
stored at construction time. -/
structure Converter where
  binaryPath : String
  options : Options
deriving DecidableEq

/-- `(*Converter).buildArgs`, translated statement by statement: a chain
of conditional appends onto an accumulator, then the input path, then the
output path when non-empty. -/
def Converter.buildArgs (c : Converter) (inputPath outputPath : String) : List String :=
  let args : List String := []
  let args := if c.options.FirstPage > 0 then args ++ ["-f", itoa c.options.FirstPage] else args
  let args := if c.options.LastPage > 0 then args ++ ["-l", itoa c.options.LastPage] else args
  let args := if c.options.Resolution > 0 then args ++ ["-r", itoa c.options.Resolution] else args
  let args := if c.options.CropX > 0 then args ++ ["-x", itoa c.options.CropX] else args
  let args := if c.options.CropY > 0 then args ++ ["-y", itoa c.options.CropY] else args
  let args := if c.options.CropWidth > 0 then args ++ ["-W", itoa c.options.CropWidth] else args
  let args := if c.options.CropHeight > 0 then args ++ ["-H", itoa c.options.CropHeight] else args
  let args := if c.options.Layout then args ++ ["-layout"] else args
  let args := if c.options.FixedPitch > 0 then args ++ ["-fixed", formatFloat c.options.FixedPitch] else args
  let args := if c.options.Raw then args ++ ["-raw"] else args
  let args := if c.options.NoDiagonal then args ++ ["-nodiag"] else args
  let args := if c.options.HTMLMeta then args ++ ["-htmlmeta"] else args
  let args := if c.options.BBox then args ++ ["-bbox"] else args
  let args := if c.options.BBoxLayout then args ++ ["-bbox-layout"] else args
  let args := if c.options.TSV then args ++ ["-tsv"] else args
  let args := if c.options.CropBox then args ++ ["-cropbox"] else args
  let args := if c.options.ColSpacing > 0 then args ++ ["-colspacing", formatFloat c.options.ColSpacing] else args
  let args := if c.options.Encoding ≠ "" then args ++ ["-enc", c.options.Encoding] else args
  let args := if c.options.EOL ≠ "" then args ++ ["-eol", c.options.EOL] else args
  let args := if c.options.NoPageBreaks then args ++ ["-nopgbrk"] else args
  let args := if c.options.OwnerPassword ≠ "" then args ++ ["-opw", c.options.OwnerPassword] else args
  let args := if c.options.UserPassword ≠ "" then args ++ ["-upw", c.options.UserPassword] else args
  let args := if c.options.Quiet then args ++ ["-q"] else args
  let args := args ++ [inputPath]
  let args := if outputPath ≠ "" then args ++ [outputPath] else args
  args

/-- The specification's per-field rule table (§4.2, §9 of the spec): one
optional segment per option field, in the documented flag order.  Each
segment is present exactly when the field's inclusion predicate holds
(`> 0` numeric, non-empty string, true boolean) and contributes its flag
literal exactly once. -/
def specFlags (o : Options) : List String :=
  (if o.FirstPage > 0 then ["-f", itoa o.FirstPage] else []) ++
  (if o.LastPage > 0 then ["-l", itoa o.LastPage] else []) ++
  (if o.Resolution > 0 then ["-r", itoa o.Resolution] else []) ++
  (if o.CropX > 0 then ["-x", itoa o.CropX] else []) ++
  (if o.CropY > 0 then ["-y", itoa o.CropY] else []) ++
  (if o.CropWidth > 0 then ["-W", itoa o.CropWidth] else []) ++
  (if o.CropHeight > 0 then ["-H", itoa o.CropHeight] else []) ++
  (if o.Layout then ["-layout"] else []) ++
  (if o.FixedPitch > 0 then ["-fixed", formatFloat o.FixedPitch] else []) ++
  (if o.Raw then ["-raw"] else []) ++
  (if o.NoDiagonal then ["-nodiag"] else []) ++
  (if o.HTMLMeta then ["-htmlmeta"] else []) ++
  (if o.BBox then ["-bbox"] else []) ++
  (if o.BBoxLayout then ["-bbox-layout"] else []) ++
  (if o.TSV then ["-tsv"] else []) ++
  (if o.CropBox then ["-cropbox"] else []) ++
  (if o.ColSpacing > 0 then ["-colspacing", formatFloat o.ColSpacing] else []) ++
  (if o.Encoding ≠ "" then ["-enc", o.Encoding] else []) ++
  (if o.EOL ≠ "" then ["-eol", o.EOL] else []) ++
  (if o.NoPageBreaks then ["-nopgbrk"] else []) ++
  (if o.OwnerPassword ≠ "" then ["-opw", o.OwnerPassword] else []) ++
  (if o.UserPassword ≠ "" then ["-upw", o.UserPassword] else []) ++
  (if o.Quiet then ["-q"] else [])

/-- The specification's compiled argument vector: the ordered flag
segments, the input path, then the output path when non-empty. -/
def specCompile (o : Options) (inputPath outputPath : String) : List String :=
  specFlags o ++ [inputPath] ++ (if outputPath ≠ "" then [outputPath] else [])

/-- A conditional append pushed to the right of the accumulator. -/
lemma ite_append_push (p : Prop) [Decidable p] (a x : List String) :
    (if p then a ++ x else a) = a ++ (if p then x else []) := by
  split <;> simp

/-- Bridge: the imperative accumulator of `buildArgs` equals the
specification's rule-table compilation. -/
lemma buildArgs_eq_specCompile (c : Converter) (inputPath outputPath : String) :
    c.buildArgs inputPath outputPath = specCompile c.options inputPath outputPath := by
  simp only [Converter.buildArgs, ite_append_push]
  simp only [specCompile, specFlags, List.nil_append, List.append_assoc]

/-- Go's `unicode.IsSpace` on a character (the Latin-1 fast path plus the
Unicode White_Space code points), as used by `strings.TrimSpace`. -/
def isGoSpace (ch : Char) : Bool :=
  ch.val = 9 || ch.val = 10 || ch.val = 11 || ch.val = 12 || ch.val = 13 || ch.val = 32 ||
  ch.val = 0x85 || ch.val = 0xA0 || ch.val = 0x1680 ||
  (0x2000 ≤ ch.val && ch.val ≤ 0x200A) ||
  ch.val = 0x2028 || ch.val = 0x2029 || ch.val = 0x202F || ch.val = 0x205F || ch.val = 0x3000

/-- Model of `strings.TrimSpace`: drop leading and trailing white space. -/
def goTrimSpace (s : String) : String :=
  String.mk (((s.data.dropWhile isGoSpace).reverse.dropWhile isGoSpace).reverse)

/-- The sentinel an error of this package wraps (in the sense of
`errors.Is`), or `launchFailure` for the `fmt.Errorf("failed to run
pdftotext: %w", err)` wrapper, which wraps only the OS-level spawn error
and none of the package sentinels. -/
inductive ErrKind where
  | pdfOpen
  | outputFile
  | permissions
  | invalidPage
  | invalidRange
  | commandFailed
  | binaryNotFound
  | launchFailure
deriving DecidableEq

/-- The message text of each package sentinel (`errors.New` strings of
`pdftotext.go`), and the literal text of the launch-failure wrapper. -/
def sentinelText : ErrKind → String
  | .pdfOpen => "error opening PDF file"
  | .outputFile => "error opening output file"
  | .permissions => "error related to PDF permissions"
  | .invalidPage => "invalid page number"
  | .invalidRange => "invalid page range"
  | .commandFailed => "pdftotext command failed"
  | .binaryNotFound => "pdftotext binary not found"
  | .launchFailure => "failed to run pdftotext"

/-- A Go error value of this package: the wrapped sentinel plus the
formatted message. -/
structure ConvError where
  kind : ErrKind
  message : String
deriving DecidableEq

/-- `fmt.Errorf("%w: %s", sentinel, detail)`: wraps the sentinel and
formats its text followed by the detail. -/
def wrapErr (k : ErrKind) (detail : String) : ConvError :=
  ⟨k, sentinelText k ++ ": " ++ detail⟩

/-- Outcome of running the subprocess: an exit with a code and the
captured stdout/stderr text, or a failure to start the process at all
(`cmd.Run` returning an error that is not an `exec.ExitError`). -/
inductive ProcResult where
  | exited (code : Int) (stdout stderr : String)
  | startFailure (errMsg : String)
deriving DecidableEq

/-- The environment that runs a binary on an argument vector.  `cmd.Run`
returns `nil` exactly for `exited 0`. -/
abbrev Runner : Type := String → List String → ProcResult

/-- The exit-code switch shared by `Convert` and `ConvertToFile`:
1 ↦ `ErrPDFOpen`, 2 ↦ `ErrOutputFile`, 3 ↦ `ErrPermissions`, any other
(non-zero) code ↦ `ErrCommandFailed`, each wrapping the captured stderr. -/
def classifyExit (code : Int) (stderrText : String) : ConvError :=
  if code = 1 then wrapErr .pdfOpen stderrText
  else if code = 2 then wrapErr .outputFile stderrText
  else if code = 3 then wrapErr .permissions stderrText
  else wrapErr .commandFailed stderrText

/-- The argument vector `Convert` compiles: `buildArgs` with the stdout
sentinel `"-"` as the output path. -/
def Converter.convertArgs (c : Converter) (inputPath : String) : List String :=
  c.buildArgs inputPath "-"

/-- `(*Converter).Convert`: run the binary on `buildArgs(inputPath, "-")`,
classify a non-zero exit or a spawn failure, and on exit 0 return the
captured stdout trimmed of surrounding white space. -/
def Converter.Convert (c : Converter) (inputPath : String) (run : Runner) :
    String × Option ConvError :=
  match run c.binaryPath (c.convertArgs inputPath) with
  | .exited code so se =>
      if code = 0 then (goTrimSpace so, none) else ("", some (classifyExit code se))
  | .startFailure msg => ("", some ⟨.launchFailure, sentinelText .launchFailure ++ ": " ++ msg⟩)

/-- `(*Converter).ConvertToFile`: run the binary on
`buildArgs(inputPath, outputPath)`; the converted text goes to the file,
so only the error is returned. -/
def Converter.ConvertToFile (c : Converter) (inputPath outputPath : String) (run : Runner) :
    Option ConvError :=
  match run c.binaryPath (c.buildArgs inputPath outputPath) with
  | .exited code _ se =>
      if code = 0 then none else some (classifyExit code se)
  | .startFailure msg => some ⟨.launchFailure, sentinelText .launchFailure ++ ": " ++ msg⟩

/-- `New`: look up the binary on the search path (the lookup outcome is a
parameter: the resolved path, or the lookup error's text) and construct
the converter; a failed lookup wraps `ErrBinaryNotFound`. -/
def New (lookupOutcome : Except String String) (options : Options) :
    Except ConvError Converter :=
  match lookupOutcome with
  | .ok path => .ok ⟨path, options⟩
  | .error msg => .error (wrapErr .binaryNotFound msg)

/-- All fields at or below their inclusion threshold: every numeric
field ≤ 0, every string field empty, every boolean field false. -/
def allOmitted (o : Options) : Prop :=
  o.FirstPage ≤ 0 ∧ o.LastPage ≤ 0 ∧ o.Resolution ≤ 0 ∧ o.CropX ≤ 0 ∧ o.CropY ≤ 0 ∧
  o.CropWidth ≤ 0 ∧ o.CropHeight ≤ 0 ∧ o.Layout = false ∧ o.FixedPitch ≤ 0 ∧
  o.Raw = false ∧ o.NoDiagonal = false ∧ o.HTMLMeta = false ∧ o.BBox = false ∧
  o.BBoxLayout = false ∧ o.TSV = false ∧ o.CropBox = false ∧ o.ColSpacing ≤ 0 ∧
  o.Encoding = "" ∧ o.EOL = "" ∧ o.NoPageBreaks = false ∧
  o.OwnerPassword = "" ∧ o.UserPassword = "" ∧ o.Quiet = false

instance (o : Options) : Decidable (allOmitted o) := by
  unfold allOmitted
  infer_instance

/-- Every numeric field replaced by `max field 0`: non-positive values
become the zero value, positive values are untouched. -/
def clampNonPos (o : Options) : Options :=
  { o with
    FirstPage := max o.FirstPage 0
    LastPage := max o.LastPage 0
    Resolution := max o.Resolution 0
    CropX := max o.CropX 0
    CropY := max o.CropY 0
    CropWidth := max o.CropWidth 0
    CropHeight := max o.CropHeight 0
    FixedPitch := max o.FixedPitch 0
    ColSpacing := max o.ColSpacing 0 }

/-- A numeric flag segment is unchanged by clamping the field at 0. -/
lemma ite_clamp_seg {α : Type} [LinearOrder α] [Zero α] (fmt : α → String)
    (a : α) (seg : String) :
    (if max a 0 > 0 then [seg, fmt (max a 0)] else []) =
      (if a > 0 then [seg, fmt a] else []) := by
  rcases le_or_lt a 0 with h | h
  · simp [max_eq_right h, not_lt.mpr h, lt_irrefl]
  · simp [max_eq_left h.le]

/-- Claim C1: for every options value and every paths pair, the argument
vector built by `buildArgs` contains a flag exactly when its field passes
its inclusion predicate (> 0 numeric, non-empty string, true boolean),
each included flag appears exactly once, and the flags appear in the
documented fixed order `-f -l -r -x -y -W -H -layout -fixed -raw -nodiag
-htmlmeta -bbox -bbox-layout -tsv -cropbox -colspacing -enc -eol
-nopgbrk -opw -upw -q`, followed by the input path and then the output
path: the vector equals the rule-table compilation `specCompile`, whose
segments are listed in exactly that order, each present exactly when its
inclusion predicate holds and contributing its flag literal once. -/
theorem buildArgs_flag_rule_table (c : Converter) (inputPath outputPath : String) :
    c.buildArgs inputPath outputPath = specCompile c.options inputPath outputPath :=
  buildArgs_eq_specCompile c inputPath outputPath

/-- Claim C3: when every numeric field is ≤ 0, every string field is
empty and every boolean field is false, `buildArgs` returns exactly
`[inputPath, outputPath]`, and exactly `[inputPath]` when the output path
is empty. -/
theorem buildArgs_all_omitted_minimal (c : Converter) (inputPath outputPath : String)
    (h : allOmitted c.options) :
    (outputPath ≠ "" → c.buildArgs inputPath outputPath = [inputPath, outputPath]) ∧
      c.buildArgs inputPath "" = [inputPath] := by
  obtain ⟨h1, h2, h3, h4, h5, h6, h7, h8, h9, h10, h11, h12, h13, h14, h15, h16, h17,
    h18, h19, h20, h21, h22, h23⟩ := h
  constructor
  · intro hout
    rw [buildArgs_eq_specCompile]
    simp [specCompile, specFlags, hout, gt_iff_lt, not_lt.mpr h1, not_lt.mpr h2,
      not_lt.mpr h3, not_lt.mpr h4, not_lt.mpr h5, not_lt.mpr h6, not_lt.mpr h7, h8,
      not_lt.mpr h9, h10, h11, h12, h13, h14, h15, h16, not_lt.mpr h17, h18, h19, h20,
      h21, h22, h23]
  · rw [buildArgs_eq_specCompile]
    simp [specCompile, specFlags, gt_iff_lt, not_lt.mpr h1, not_lt.mpr h2,
      not_lt.mpr h3, not_lt.mpr h4, not_lt.mpr h5, not_lt.mpr h6, not_lt.mpr h7, h8,
      not_lt.mpr h9, h10, h11, h12, h13, h14, h15, h16, not_lt.mpr h17, h18, h19, h20,
      h21, h22, h23]

/-- Witness for claim C3 at the Go zero options and concrete paths. -/
theorem buildArgs_all_omitted_minimal_witness :
    (("out.txt" : String) ≠ "" →
        (Converter.mk "pdftotext" defaultOptions).buildArgs "in.pdf" "out.txt" =
          ["in.pdf", "out.txt"]) ∧
      (Converter.mk "pdftotext" defaultOptions).buildArgs "in.pdf" "" = ["in.pdf"] :=
  buildArgs_all_omitted_minimal (Converter.mk "pdftotext" defaultOptions)
    "in.pdf" "out.txt" (by decide)

/-- Claim C5: in-memory conversion always compiles its argument vector
with the output sentinel `"-"`: the vector `Convert` passes to the
subprocess ends with the input path immediately followed by the literal
`"-"` as its final element. -/
theorem convert_stdout_sentinel (c : Converter) (inputPath : String) :
    ∃ flagPart, c.convertArgs inputPath = flagPart ++ [inputPath, "-"] := by
  refine ⟨specFlags c.options, ?_⟩
  have hdash : ("-" : String) ≠ "" := by decide
  rw [Converter.convertArgs, buildArgs_eq_specCompile]
  simp [specCompile, hdash]

/-- Claim C6: `buildArgs` is a pure, deterministic, total Lean function
(its type is `Converter → String → String → List String`, with no error
channel), and a malformed — zero or negative — numeric value behaves
exactly as the zero value, whose flag is omitted: the vector is unchanged
when every numeric field is clamped at 0. -/
theorem buildArgs_total_negatives_omitted (c : Converter) (inputPath outputPath : String) :
    c.buildArgs inputPath outputPath =
      (Converter.mk c.binaryPath (clampNonPos c.options)).buildArgs inputPath outputPath := by
  rw [buildArgs_eq_specCompile, buildArgs_eq_specCompile]
  simp only [specCompile, specFlags, clampNonPos, ite_clamp_seg]

/-- The exit-code switch only ever wraps one of the four per-call
sentinels. -/
lemma classifyExit_kind_cases (code : Int) (se : String) :
    (classifyExit code se).kind = ErrKind.pdfOpen ∨
      (classifyExit code se).kind = ErrKind.outputFile ∨
      (classifyExit code se).kind = ErrKind.permissions ∨
      (classifyExit code se).kind = ErrKind.commandFailed := by
  simp only [classifyExit]
  split_ifs <;> simp [wrapErr]

/-- Claim C4: when the subprocess exits with code 0, `Convert` returns
the captured stdout trimmed of leading and trailing white space together
with no error, and `ConvertToFile` returns no error. -/
theorem convert_success_trims_output (c : Converter) (inputPath outputPath so se : String) :
    c.Convert inputPath (fun _ _ => ProcResult.exited 0 so se) = (goTrimSpace so, none) ∧
      c.ConvertToFile inputPath outputPath (fun _ _ => ProcResult.exited 0 so se) = none := by
  constructor
  · simp [Converter.Convert]
  · simp [Converter.ConvertToFile]

/-- Claim C2: for both `Convert` and `ConvertToFile`, a non-zero exit
code is classified by `classifyExit`, which wraps `ErrPDFOpen` for 1,
`ErrOutputFile` for 2, `ErrPermissions` for 3 and `ErrCommandFailed`
otherwise, and whose message carries the captured stderr; a failure to
start the process is returned as the distinct launch-failure wrapper,
which wraps none of those four sentinels. -/
theorem convert_exit_code_classification (c : Converter)
    (inputPath outputPath so se msg : String) (code : Int) (h : code ≠ 0) :
    ((c.Convert inputPath (fun _ _ => ProcResult.exited code so se)).2 =
        some (classifyExit code se) ∧
      c.ConvertToFile inputPath outputPath (fun _ _ => ProcResult.exited code so se) =
        some (classifyExit code se)) ∧
    (classifyExit code se).kind =
      (if code = 1 then ErrKind.pdfOpen else if code = 2 then ErrKind.outputFile
        else if code = 3 then ErrKind.permissions else ErrKind.commandFailed) ∧
    (∃ pre, (classifyExit code se).message = pre ++ se) ∧
    ((c.Convert inputPath (fun _ _ => ProcResult.startFailure msg)).2 =
        some ⟨ErrKind.launchFailure, sentinelText ErrKind.launchFailure ++ ": " ++ msg⟩ ∧
      c.ConvertToFile inputPath outputPath (fun _ _ => ProcResult.startFailure msg) =
        some ⟨ErrKind.launchFailure, sentinelText ErrKind.launchFailure ++ ": " ++ msg⟩ ∧
      ErrKind.launchFailure ≠ ErrKind.pdfOpen ∧
      ErrKind.launchFailure ≠ ErrKind.outputFile ∧
      ErrKind.launchFailure ≠ ErrKind.permissions ∧
      ErrKind.launchFailure ≠ ErrKind.commandFailed) := by
  refine ⟨⟨by simp [Converter.Convert, h], by simp [Converter.ConvertToFile, h]⟩, ?_, ?_,
    by simp [Converter.Convert], by simp [Converter.ConvertToFile], by decide, by decide,
    by decide, by decide⟩
  · simp only [classifyExit]
    split_ifs <;> simp [wrapErr]
  · simp only [classifyExit, wrapErr]
    split_ifs <;> exact ⟨_, rfl⟩

/-- Witness for claim C2 at exit code 2 with stderr text. -/
theorem convert_exit_code_classification_witness :
    (((Converter.mk "pdftotext" defaultOptions).Convert "in.pdf"
          (fun _ _ => ProcResult.exited 2 "" "boom")).2 = some (classifyExit 2 "boom") ∧
      (Converter.mk "pdftotext" defaultOptions).ConvertToFile "in.pdf" "out.txt"
          (fun _ _ => ProcResult.exited 2 "" "boom") = some (classifyExit 2 "boom")) ∧
    (classifyExit 2 "boom").kind =
      (if (2 : Int) = 1 then ErrKind.pdfOpen else if (2 : Int) = 2 then ErrKind.outputFile
        else if (2 : Int) = 3 then ErrKind.permissions else ErrKind.commandFailed) ∧
    (∃ pre, (classifyExit 2 "boom").message = pre ++ "boom") ∧
    (((Converter.mk "pdftotext" defaultOptions).Convert "in.pdf"
          (fun _ _ => ProcResult.startFailure "spawn")).2 =
        some ⟨ErrKind.launchFailure, sentinelText ErrKind.launchFailure ++ ": " ++ "spawn"⟩ ∧
      (Converter.mk "pdftotext" defaultOptions).ConvertToFile "in.pdf" "out.txt"
          (fun _ _ => ProcResult.startFailure "spawn") =
        some ⟨ErrKind.launchFailure, sentinelText ErrKind.launchFailure ++ ": " ++ "spawn"⟩ ∧
      ErrKind.launchFailure ≠ ErrKind.pdfOpen ∧
      ErrKind.launchFailure ≠ ErrKind.outputFile ∧
      ErrKind.launchFailure ≠ ErrKind.permissions ∧
      ErrKind.launchFailure ≠ ErrKind.commandFailed) :=
  convert_exit_code_classification (Converter.mk "pdftotext" defaultOptions)
    "in.pdf" "out.txt" "" "boom" "spawn" 2 (by decide)

/-- Claim C9: no error returned by `New`, `Convert` or `ConvertToFile`
ever wraps `ErrInvalidPage` or `ErrInvalidRange`; every returned error
wraps one of `ErrPDFOpen`, `ErrOutputFile`, `ErrPermissions`,
`ErrCommandFailed`, `ErrBinaryNotFound`, or is the launch-failure
wrapper. -/
theorem errors_never_invalid_page_or_range (c : Converter) (inputPath outputPath : String)
    (run1 run2 : Runner) (lookupOutcome : Except String String) (o : Options) (e : ConvError)
    (h : (c.Convert inputPath run1).2 = some e ∨
        c.ConvertToFile inputPath outputPath run2 = some e ∨
        New lookupOutcome o = Except.error e) :
    e.kind ≠ ErrKind.invalidPage ∧ e.kind ≠ ErrKind.invalidRange ∧
      (e.kind = ErrKind.pdfOpen ∨ e.kind = ErrKind.outputFile ∨
        e.kind = ErrKind.permissions ∨ e.kind = ErrKind.commandFailed ∨
        e.kind = ErrKind.launchFailure ∨ e.kind = ErrKind.binaryNotFound) := by
  have hk : e.kind = ErrKind.pdfOpen ∨ e.kind = ErrKind.outputFile ∨
      e.kind = ErrKind.permissions ∨ e.kind = ErrKind.commandFailed ∨
      e.kind = ErrKind.launchFailure ∨ e.kind = ErrKind.binaryNotFound := by
    rcases h with h | h | h
    · cases hr : run1 c.binaryPath (c.convertArgs inputPath) with
      | exited code so se =>
        by_cases hc : code = 0
        · simp [Converter.Convert, hr, hc] at h
        · simp [Converter.Convert, hr, hc] at h
          have hm := classifyExit_kind_cases code se
          rw [h] at hm
          tauto
      | startFailure m =>
        simp [Converter.Convert, hr] at h
        rw [← h]
        simp
    · cases hr : run2 c.binaryPath (c.buildArgs inputPath outputPath) with
      | exited code so se =>
        by_cases hc : code = 0
        · simp [Converter.ConvertToFile, hr, hc] at h
        · simp [Converter.ConvertToFile, hr, hc] at h
          have hm := classifyExit_kind_cases code se
          rw [h] at hm
          tauto
      | startFailure m =>
        simp [Converter.ConvertToFile, hr] at h
        rw [← h]
        simp
    · cases lookupOutcome with
      | ok path => simp [New] at h
      | error m =>
        simp only [New] at h
        have h' : wrapErr ErrKind.binaryNotFound m = e := by
          injection h
        rw [← h']
        simp [wrapErr]
  refine ⟨?_, ?_, hk⟩ <;>
    rcases hk with h' | h' | h' | h' | h' | h' <;> rw [h'] <;> decide

/-- Witness for claim C9 at a subprocess exiting with code 1. -/
theorem errors_never_invalid_page_or_range_witness :
    (wrapErr ErrKind.pdfOpen "boom").kind ≠ ErrKind.invalidPage ∧
      (wrapErr ErrKind.pdfOpen "boom").kind ≠ ErrKind.invalidRange ∧
      ((wrapErr ErrKind.pdfOpen "boom").kind = ErrKind.pdfOpen ∨
        (wrapErr ErrKind.pdfOpen "boom").kind = ErrKind.outputFile ∨
        (wrapErr ErrKind.pdfOpen "boom").kind = ErrKind.permissions ∨
        (wrapErr ErrKind.pdfOpen "boom").kind = ErrKind.commandFailed ∨
        (wrapErr ErrKind.pdfOpen "boom").kind = ErrKind.launchFailure ∨
        (wrapErr ErrKind.pdfOpen "boom").kind = ErrKind.binaryNotFound) :=
  errors_never_invalid_page_or_range (Converter.mk "pdftotext" defaultOptions)
    "in.pdf" "out.txt" (fun _ _ => ProcResult.exited 1 "" "boom")
    (fun _ _ => ProcResult.exited 1 "" "boom") (Except.ok "/usr/bin/pdftotext")
    defaultOptions (wrapErr ErrKind.pdfOpen "boom") (Or.inl (by decide))

/-- Claim C10: whenever `Convert` returns an error, the text result is
exactly the empty string — never partial captured output. -/
theorem convert_error_empty_text (c : Converter) (inputPath : String) (run : Runner)
    (e : ConvError) (h : (c.Convert inputPath run).2 = some e) :
    (c.Convert inputPath run).1 = "" := by
  cases hr : run c.binaryPath (c.convertArgs inputPath) with
  | exited code so se =>
    by_cases hc : code = 0
    · simp [Converter.Convert, hr, hc] at h
    · simp [Converter.Convert, hr, hc]
  | startFailure m =>
    simp [Converter.Convert, hr]

/-- Witness for claim C10 at a subprocess exiting with code 1. -/
theorem convert_error_empty_text_witness :
    ((Converter.mk "pdftotext" defaultOptions).Convert "in.pdf"
        (fun _ _ => ProcResult.exited 1 "partial text" "boom")).1 = "" :=
  convert_error_empty_text (Converter.mk "pdftotext" defaultOptions) "in.pdf"
    (fun _ _ => ProcResult.exited 1 "partial text" "boom")
    (wrapErr ErrKind.pdfOpen "boom") (by decide)

/-- Claim C8 (evaluation at the failing configuration): in the code,
conversion options live in the `Converter` — two converters with the same
binary path but different construction-time options compile different
argument vectors for the same call, and there is no per-call options
parameter by which a caller could override them.  The package's own tests
call `New()` and `buildArgs(options, input, output)` with per-call
options, which does not type-check against this code. -/
theorem options_live_in_converter_state :
    (Converter.mk "pdftotext" { defaultOptions with Layout := true }).buildArgs
        "input.pdf" "output.txt" = ["-layout", "input.pdf", "output.txt"] ∧
      (Converter.mk "pdftotext" { defaultOptions with Layout := true }).binaryPath =
        (Converter.mk "pdftotext" defaultOptions).binaryPath ∧
      (Converter.mk "pdftotext" { defaultOptions with Layout := true }).buildArgs
          "input.pdf" "output.txt" ≠
        (Converter.mk "pdftotext" defaultOptions).buildArgs "input.pdf" "output.txt" := by
  refine ⟨by decide, rfl, by decide⟩

end PdfToTextGo
